import Mathlib

/-!
Verification of the OpenRGB accent-color sync core (binary protocol codec,
device-descriptor parser, identity hasher, high-level client) against its
natural-language specification.

Buffers (JS `ArrayBuffer`) are modelled as `List Nat` with each entry a byte
value `< 256`; `DataView` reads/writes are modelled little-endian on those
lists.  Wire strings are kept as raw byte lists (the `TextDecoder` step is
modelled as the identity on bytes).  Fallible operations return `Except`.
-/

namespace OpenRGB

/-- Little-endian value of a list of bytes (least significant byte first),
as produced by `DataView.getUint16/getUint32` with `littleEndian = true`. -/
def leNum : List Nat → Nat
  | [] => 0
  | b :: bs => b + 256 * leNum bs

/-- Little-endian 2-byte encoding, as written by `DataView.setUint16`
(which wraps its argument to 16 bits). -/
def u16le (n : Nat) : List Nat :=
  [n % 256, n / 256 % 256]

/-- Little-endian 4-byte encoding, as written by `DataView.setUint32`
(which wraps its argument to 32 bits). -/
def u32le (n : Nat) : List Nat :=
  [n % 256, n / 256 % 256, n / 65536 % 256, n / 16777216 % 256]

/-- Error thrown by `BinaryParser` reads past the end of the buffer
(`parser.ts`): the message carries the current offset and the total buffer
size; we model it by those two numbers. -/
structure ParseError where
  offset : Nat
  bufLen : Nat
  deriving Repr, DecidableEq

/-- Cursor-based reader over a fixed byte buffer (`parser.ts`, class
`BinaryParser`): the underlying data and the current offset. -/
structure BinaryParser where
  data : List Nat
  offset : Nat
  deriving Repr, DecidableEq

namespace BinaryParser

/-- `BinaryParser.readUint32` (`parser.ts` lines 12-22). -/
def readUint32 (p : BinaryParser) : Except ParseError (Nat × BinaryParser) :=
  if p.offset + 4 > p.data.length then
    .error ⟨p.offset, p.data.length⟩
  else
    .ok (leNum ((p.data.drop p.offset).take 4), ⟨p.data, p.offset + 4⟩)

/-- `BinaryParser.readUint16` (`parser.ts` lines 24-34). -/
def readUint16 (p : BinaryParser) : Except ParseError (Nat × BinaryParser) :=
  if p.offset + 2 > p.data.length then
    .error ⟨p.offset, p.data.length⟩
  else
    .ok (leNum ((p.data.drop p.offset).take 2), ⟨p.data, p.offset + 2⟩)

/-- `BinaryParser.readString` (`parser.ts` lines 36-49): a uint16 length
prefix followed by that many bytes; the decoded string is modelled as the
raw byte list. -/
def readString (p : BinaryParser) : Except ParseError (List Nat × BinaryParser) :=
  match p.readUint16 with
  | .error e => .error e
  | .ok (len, p1) =>
    if len = 0 then .ok ([], p1)
    else if p1.offset + len > p1.data.length then
      .error ⟨p1.offset, p1.data.length⟩
    else
      .ok ((p1.data.drop p1.offset).take len, ⟨p1.data, p1.offset + len⟩)

/-- A 4-channel color as carried on the wire and in descriptors
(`types.ts`, interface `RGBColor`); channels are byte values. -/
structure Color where
  r : Nat
  g : Nat
  b : Nat
  a : Nat
  deriving Repr, DecidableEq

/-- `BinaryParser.readRGBColor` (`parser.ts` lines 51-65): four single
bytes r, g, b, a. -/
def readRGBColor (p : BinaryParser) : Except ParseError (Color × BinaryParser) :=
  if p.offset + 4 > p.data.length then
    .error ⟨p.offset, p.data.length⟩
  else
    .ok (⟨p.data.getD p.offset 0, p.data.getD (p.offset + 1) 0,
          p.data.getD (p.offset + 2) 0, p.data.getD (p.offset + 3) 0⟩,
         ⟨p.data, p.offset + 4⟩)

/-- `BinaryParser.skip` (`parser.ts` lines 67-74). -/
def skip (p : BinaryParser) (bytes : Nat) : Except ParseError BinaryParser :=
  if p.offset + bytes > p.data.length then
    .error ⟨p.offset, p.data.length⟩
  else
    .ok ⟨p.data, p.offset + bytes⟩

end BinaryParser

/-! ## Device descriptor parser (`device.ts`, `DeviceData.parse`) -/

/-- A controller mode as parsed from the descriptor payload (`device.ts`
lines 70-82); the wire string is kept as a byte list. -/
structure DeviceMode where
  name : List Nat
  value : Nat
  flags : Nat
  speedMin : Nat
  speedMax : Nat
  colorsMin : Nat
  colorsMax : Nat
  speed : Nat
  direction : Nat
  colorMode : Nat
  colors : List BinaryParser.Color
  deriving Repr, DecidableEq

/-- A controller zone as parsed from the descriptor payload (`device.ts`
lines 97-113). -/
structure DeviceZone where
  name : List Nat
  type : Nat
  ledsMin : Nat
  ledsMax : Nat
  ledsCount : Nat
  matrixHeight : Option Nat
  matrixWidth : Option Nat
  deriving Repr, DecidableEq

/-- An individual LED as parsed from the descriptor payload (`device.ts`
lines 123-126). -/
structure DeviceLED where
  name : List Nat
  value : Nat
  deriving Repr, DecidableEq

/-- The mutable `DeviceData` object built by `DeviceData.parse`
(`device.ts` lines 4-25); field defaults match the constructor. -/
structure DeviceDataRaw where
  name : List Nat := []
  description : List Nat := []
  version : List Nat := []
  serial : List Nat := []
  location : List Nat := []
  modes : List DeviceMode := []
  zones : List DeviceZone := []
  leds : List DeviceLED := []
  colors : List BinaryParser.Color := []
  deriving Repr, DecidableEq

/-- The freshly-constructed `DeviceData` with all fields at their
constructor defaults. -/
def DeviceDataRaw.default : DeviceDataRaw := {}

/-- The parse computation of `DeviceData.parse`: state is the cursor plus
the partially-populated device object.  On a read failure the error carries
the device as populated at that instant, mirroring the fact that the JS
`catch` block sees the mutations performed so far. -/
def ParseM (α : Type) : Type :=
  BinaryParser × DeviceDataRaw → Except DeviceDataRaw (α × BinaryParser × DeviceDataRaw)

instance : Monad ParseM where
  pure a := fun s => .ok (a, s)
  bind m f := fun s =>
    match m s with
    | .error d => .error d
    | .ok (a, s2) => f a s2

/-- Lift a `BinaryParser` read into the parse computation: a `ParseError`
becomes a failure carrying the current partial device. -/
def liftRead (op : BinaryParser → Except ParseError (α × BinaryParser)) : ParseM α :=
  fun s =>
    match op s.1 with
    | .error _ => .error s.2
    | .ok (a, p2) => .ok (a, p2, s.2)

/-- Lift `BinaryParser.skip` into the parse computation. -/
def liftSkip (bytes : Nat) : ParseM Unit :=
  fun s =>
    match s.1.skip bytes with
    | .error _ => .error s.2
    | .ok p2 => .ok ((), p2, s.2)

/-- Mutate the partially-populated device object. -/
def setDev (f : DeviceDataRaw → DeviceDataRaw) : ParseM Unit :=
  fun s => .ok ((), s.1, f s.2)

/-- Read `n` RGBA colors in sequence (the inner `mode.colors` loop,
`device.ts` lines 85-87); the list is local to the mode, so a failure
mid-loop discards it. -/
def readColors : Nat → ParseM (List BinaryParser.Color)
  | 0 => pure []
  | n + 1 => do
    let c ← liftRead BinaryParser.readRGBColor
    let cs ← readColors n
    pure (c :: cs)

/-- Parse one mode and push it onto `device.modes` (`device.ts` lines
69-91).  The mode object is local until the final push, so a failure while
reading its fields leaves `device.modes` unchanged. -/
def parseOneMode : ParseM Unit := do
  let nm ← liftRead BinaryParser.readString
  let value ← liftRead BinaryParser.readUint32
  let flags ← liftRead BinaryParser.readUint32
  let speedMin ← liftRead BinaryParser.readUint32
  let speedMax ← liftRead BinaryParser.readUint32
  let colorsMin ← liftRead BinaryParser.readUint32
  let colorsMax ← liftRead BinaryParser.readUint32
  let speed ← liftRead BinaryParser.readUint32
  let direction ← liftRead BinaryParser.readUint32
  let colorMode ← liftRead BinaryParser.readUint32
  let cc ← liftRead BinaryParser.readUint16
  let colors ← readColors cc
  setDev fun d =>
    { d with modes := d.modes ++ [⟨nm, value, flags, speedMin, speedMax,
        colorsMin, colorsMax, speed, direction, colorMode, colors⟩] }

/-- The mode table loop (`device.ts` lines 69-91). -/
def parseModes : Nat → ParseM Unit
  | 0 => pure ()
  | n + 1 => do
    parseOneMode
    parseModes n

/-- Parse one zone and push it onto `device.zones` (`device.ts` lines
96-117), including the optional matrix block: when the uint16 matrix
descriptor length is positive, two uint32 dimensions are read and
`matrixLength - 8` further bytes are skipped when that difference is
positive (JS subtraction can go negative there; truncated `Nat`
subtraction gives the same guard outcome). -/
def parseOneZone : ParseM Unit := do
  let nm ← liftRead BinaryParser.readString
  let ty ← liftRead BinaryParser.readUint32
  let ledsMin ← liftRead BinaryParser.readUint32
  let ledsMax ← liftRead BinaryParser.readUint32
  let ledsCount ← liftRead BinaryParser.readUint32
  let matrixLength ← liftRead BinaryParser.readUint16
  if matrixLength > 0 then do
    let h ← liftRead BinaryParser.readUint32
    let w ← liftRead BinaryParser.readUint32
    if matrixLength - 8 > 0 then
      liftSkip (matrixLength - 8)
    setDev fun d =>
      { d with zones := d.zones ++ [⟨nm, ty, ledsMin, ledsMax, ledsCount, some h, some w⟩] }
  else
    setDev fun d =>
      { d with zones := d.zones ++ [⟨nm, ty, ledsMin, ledsMax, ledsCount, none, none⟩] }

/-- The zone table loop (`device.ts` lines 96-117). -/
def parseZones : Nat → ParseM Unit
  | 0 => pure ()
  | n + 1 => do
    parseOneZone
    parseZones n

/-- The LED table loop (`device.ts` lines 122-130): per LED a string name
and a uint32 value, pushed onto `device.leds` once both reads succeed. -/
def parseLeds : Nat → ParseM Unit
  | 0 => pure ()
  | n + 1 => do
    let nm ← liftRead BinaryParser.readString
    let value ← liftRead BinaryParser.readUint32
    setDev fun d => { d with leds := d.leds ++ [⟨nm, value⟩] }
    parseLeds n

/-- The top-level color loop (`device.ts` lines 135-138): each color is
pushed onto `device.colors` as soon as it is read, so a failure mid-loop
keeps the colors read so far. -/
def parseTopColors : Nat → ParseM Unit
  | 0 => pure ()
  | n + 1 => do
    let c ← liftRead BinaryParser.readRGBColor
    setDev fun d => { d with colors := d.colors ++ [c] }
    parseTopColors n

/-- The fixed parse sequence inside the `try` block of `DeviceData.parse`
(`device.ts` lines 44-143). -/
def parseSequence : ParseM Unit := do
  let _dataSize ← liftRead BinaryParser.readUint32
  let _commandType ← liftRead BinaryParser.readUint32
  let nm ← liftRead BinaryParser.readString
  setDev fun d => { d with name := nm }
  let descr ← liftRead BinaryParser.readString
  setDev fun d => { d with description := descr }
  let ver ← liftRead BinaryParser.readString
  setDev fun d => { d with version := ver }
  let ser ← liftRead BinaryParser.readString
  setDev fun d => { d with serial := ser }
  let loc ← liftRead BinaryParser.readString
  setDev fun d => { d with location := loc }
  let modeCount ← liftRead BinaryParser.readUint16
  let _activeModeIndex ← liftRead BinaryParser.readUint32
  parseModes modeCount
  let zoneCount ← liftRead BinaryParser.readUint16
  parseZones zoneCount
  let ledCount ← liftRead BinaryParser.readUint16
  parseLeds ledCount
  let colorCount ← liftRead BinaryParser.readUint16
  parseTopColors colorCount

/-- `DeviceData.parse` (`device.ts` lines 27-161): run the fixed parse
sequence; the surrounding `try`/`catch` returns the device as populated at
the point of failure instead of propagating the error. -/
def DeviceDataRaw.parse (data : List Nat) : DeviceDataRaw :=
  match parseSequence (⟨data, 0⟩, DeviceDataRaw.default) with
  | .error d => d
  | .ok (_, _, d) => d

/-! ## Identity hasher (`hash.ts`) -/

/-- Whitespace test used to model the JS regex class `\s` and
`String.prototype.trim` (the claims only exercise ASCII whitespace). -/
def isWs (c : Char) : Bool :=
  c = ' ' || c = '\t' || c = '\n' || c = '\r'

/-- ASCII lower-casing of one character, modelling
`String.prototype.toLowerCase` on the ASCII inputs the claims exercise. -/
def jsLowerChar (c : Char) : Char :=
  if 'A' ≤ c ∧ c ≤ 'Z' then Char.ofNat (c.toNat + 32) else c

/-- `String.prototype.trim`: drop whitespace from both ends. -/
def jsTrim (l : List Char) : List Char :=
  ((l.dropWhile isWs).reverse.dropWhile isWs).reverse

/-- `/^0+$/.test s`: the string is non-empty and consists entirely of the
digit `0`. -/
def isAllZeros (l : List Char) : Bool :=
  !l.isEmpty && l.all (fun c => c = '0')

/-- `trimmed.replace(/\s+/g, ' ')`: every maximal whitespace run becomes a
single space.  The boolean tracks whether the previous character was part
of a whitespace run. -/
def collapseWsAux : Bool → List Char → List Char
  | _, [] => []
  | prevWs, c :: rest =>
    if isWs c then
      if prevWs then collapseWsAux true rest
      else ' ' :: collapseWsAux true rest
    else c :: collapseWsAux false rest

/-- The `norm` helper inside `buildDeviceFingerprint` (`hash.ts`):
absent/blank input gives the placeholder; otherwise trim + lower-case,
then an empty or all-zero-digit result gives the placeholder; otherwise
whitespace runs are collapsed to single spaces. -/
def normField (v : Option String) (placeholder : String) : String :=
  match v with
  | none => placeholder
  | some s =>
    if s = "" then placeholder
    else
      let t := (jsTrim s.data).map jsLowerChar
      if t = [] then placeholder
      else if isAllZeros t then placeholder
      else String.mk (collapseWsAux false t)

/-- The attribute tuple passed to `buildDeviceFingerprint` (`hash.ts`):
optional serial/location/name plus the LED count. -/
structure FingerprintParts where
  serial : Option String
  location : Option String
  name : Option String
  ledCount : Nat

/-- `buildDeviceFingerprint` (`hash.ts`): normalize the three string
fields with their per-field placeholders and join them with the LED count
as `"{serial}|{location}|{name}|leds:{ledCount}"`. -/
def buildDeviceFingerprint (parts : FingerprintParts) : String :=
  let serial := normField parts.serial "serial:false"
  let location := normField parts.location "loc:false"
  let nm := normField parts.name "name:false"
  serial ++ "|" ++ location ++ "|" ++ nm ++ "|" ++ "leds:" ++ toString parts.ledCount

/-! ### SHA-256

Modelled from the spec: the hashing backend of `hashFingerprint`
(GLib `compute_checksum_for_string` / node `crypto`, both computing a
SHA-256 digest) is external to this repository, so it is modelled here as
the standard SHA-256 over the UTF-8 bytes of the fingerprint. -/

/-- 2^32 as a constant. -/
def M32 : Nat := 4294967296

/-- 32-bit right rotation. -/
def rotr32 (x n : Nat) : Nat :=
  ((x >>> n) ||| (x <<< (32 - n))) % M32

/-- Big-endian 4-byte word from a byte list at offset `i`. -/
def wordBE (l : List Nat) (i : Nat) : Nat :=
  l.getD i 0 * 16777216 + l.getD (i + 1) 0 * 65536 + l.getD (i + 2) 0 * 256 + l.getD (i + 3) 0

/-- The 64 SHA-256 round constants. -/
def shaK : List Nat :=
  [1116352408, 1899447441, 3049323471, 3921009573, 961987163, 1508970993,
   2453635748, 2870763221, 3624381080, 310598401, 607225278, 1426881987,
   1925078388, 2162078206, 2614888103, 3248222580, 3835390401, 4022224774,
   264347078, 604807628, 770255983, 1249150122, 1555081692, 1996064986,
   2554220882, 2821834349, 2952996808, 3210313671, 3336571891, 3584528711,
   113926993, 338241895, 666307205, 773529912, 1294757372, 1396182291,
   1695183700, 1986661051, 2177026350, 2456956037, 2730485921, 2820302411,
   3259730800, 3345764771, 3516065817, 3600352804, 4094571909, 275423344,
   430227734, 506948616, 659060556, 883997877, 958139571, 1322822218,
   1537002063, 1747873779, 1955562222, 2024104815, 2227730452, 2361852424,
   2428436474, 2756734187, 3204031479, 3329325298]

/-- The SHA-256 working state: eight 32-bit words. -/
structure ShaState where
  a : Nat
  b : Nat
  c : Nat
  d : Nat
  e : Nat
  f : Nat
  g : Nat
  h : Nat
  deriving Repr, DecidableEq

/-- The SHA-256 initial hash value. -/
def shaInit : ShaState :=
  ⟨1779033703, 3144134277, 1013904242, 2773480762,
   1359893119, 2600822924, 528734635, 1541459225⟩

/-- Extend a 16-word block to the 64-word message schedule; `n` counts the
words still to append. -/
def extendSchedule : List Nat → Nat → List Nat
  | w, 0 => w
  | w, n + 1 =>
    let i := w.length
    let s0x := w.getD (i - 15) 0
    let s1x := w.getD (i - 2) 0
    let s0 := (rotr32 s0x 7) ^^^ (rotr32 s0x 18) ^^^ (s0x >>> 3)
    let s1 := (rotr32 s1x 17) ^^^ (rotr32 s1x 19) ^^^ (s1x >>> 10)
    extendSchedule (w ++ [(w.getD (i - 16) 0 + s0 + w.getD (i - 7) 0 + s1) % M32]) n

/-- One SHA-256 round, consuming a schedule word paired with its round
constant. -/
def shaRound (st : ShaState) (wk : Nat × Nat) : ShaState :=
  let S1 := (rotr32 st.e 6) ^^^ (rotr32 st.e 11) ^^^ (rotr32 st.e 25)
  let ch := (st.e &&& st.f) ^^^ ((M32 - 1 - st.e) &&& st.g)
  let temp1 := (st.h + S1 + ch + wk.2 + wk.1) % M32
  let S0 := (rotr32 st.a 2) ^^^ (rotr32 st.a 13) ^^^ (rotr32 st.a 22)
  let maj := (st.a &&& st.b) ^^^ (st.a &&& st.c) ^^^ (st.b &&& st.c)
  let temp2 := (S0 + maj) % M32
  ⟨(temp1 + temp2) % M32, st.a, st.b, st.c, (st.d + temp1) % M32, st.e, st.f, st.g⟩

/-- Compress one 64-byte block into the running hash value. -/
def shaCompress (hv : ShaState) (block : List Nat) : ShaState :=
  let w16 := (List.range 16).map (fun j => wordBE block (4 * j))
  let w := extendSchedule w16 48
  let st := (w.zip shaK).foldl shaRound hv
  ⟨(hv.a + st.a) % M32, (hv.b + st.b) % M32, (hv.c + st.c) % M32, (hv.d + st.d) % M32,
   (hv.e + st.e) % M32, (hv.f + st.f) % M32, (hv.g + st.g) % M32, (hv.h + st.h) % M32⟩

/-- Big-endian 8-byte encoding of the message bit length. -/
def be64 (n : Nat) : List Nat :=
  [n / 72057594037927936 % 256, n / 281474976710656 % 256, n / 1099511627776 % 256,
   n / 4294967296 % 256, n / 16777216 % 256, n / 65536 % 256, n / 256 % 256, n % 256]

/-- SHA-256 padding: append `0x80`, zero bytes up to 56 mod 64, then the
bit length as a big-endian 64-bit number. -/
def shaPad (msg : List Nat) : List Nat :=
  let len := msg.length
  let zeros := (64 + 56 - (len + 1) % 64) % 64
  msg ++ [0x80] ++ List.replicate zeros 0 ++ be64 (len * 8)

/-- Split a padded message into 64-byte blocks (fuel-based recursion so
that the definition evaluates by kernel reduction). -/
def toBlocksAux : Nat → List Nat → List (List Nat)
  | 0, _ => []
  | _ + 1, [] => []
  | fuel + 1, l => l.take 64 :: toBlocksAux fuel (l.drop 64)

/-- Split into 64-byte blocks. -/
def toBlocks (l : List Nat) : List (List Nat) :=
  toBlocksAux (l.length + 1) l

/-- Hexadecimal digit characters. -/
def hexDigits : List Char :=
  "0123456789abcdef".data

/-- One hex digit character for a nibble. -/
def nibChar (n : Nat) : Char :=
  hexDigits.getD (n % 16) '0'

/-- Eight hex characters of one 32-bit word, most significant nibble
first. -/
def wordHex (w : Nat) : List Char :=
  [nibChar (w / 268435456), nibChar (w / 16777216), nibChar (w / 1048576),
   nibChar (w / 65536), nibChar (w / 4096), nibChar (w / 256), nibChar (w / 16), nibChar w]

/-- The 64 lowercase-hex characters of the SHA-256 digest of a byte
message. -/
def sha256HexChars (msg : List Nat) : List Char :=
  let hv := (toBlocks (shaPad msg)).foldl shaCompress shaInit
  wordHex hv.a ++ wordHex hv.b ++ wordHex hv.c ++ wordHex hv.d ++
  wordHex hv.e ++ wordHex hv.f ++ wordHex hv.g ++ wordHex hv.h

/-- UTF-8 encoding of one character. -/
def utf8EncodeChar (c : Char) : List Nat :=
  let n := c.toNat
  if n < 128 then [n]
  else if n < 2048 then [192 + n / 64, 128 + n % 64]
  else if n < 65536 then [224 + n / 4096, 128 + n / 64 % 64, 128 + n % 64]
  else [240 + n / 262144, 128 + n / 4096 % 64, 128 + n / 64 % 64, 128 + n % 64]

/-- UTF-8 bytes of a string. -/
def utf8Bytes (s : String) : List Nat :=
  s.data.foldr (fun c acc => utf8EncodeChar c ++ acc) []

/-- `hashFingerprint` (`hash.ts`): the first 16 hexadecimal characters of
the SHA-256 digest of the fingerprint string. -/
def hashFingerprint (fingerprint : String) : String :=
  String.mk ((sha256HexChars (utf8Bytes fingerprint)).take 16)

/-! ## Color validation (`types.ts`, `validateRGBColor`) -/

/-- The possibly-partial, possibly-invalid color input accepted by
`validateRGBColor` (`types.ts`): a channel is `none` when absent or not a
(finite) number; the `Math.floor` step is the identity on the integer
inputs modelled here. -/
structure RGBInput where
  r : Option Int
  g : Option Int
  b : Option Int
  a : Option Int

/-- The `clamp` helper inside `validateRGBColor`: default for an
absent/invalid channel, otherwise clamp into `[0, 255]`. -/
def clampChannel (v : Option Int) (dflt : Nat) : Nat :=
  match v with
  | none => dflt
  | some x => (max 0 (min 255 x)).toNat

/-- `validateRGBColor` (`types.ts`): clamp every channel, defaulting r, g,
b to 0 and alpha to 255. -/
def validateRGBColor (c : RGBInput) : BinaryParser.Color :=
  ⟨clampChannel c.r 0, clampChannel c.g 0, clampChannel c.b 0, clampChannel c.a 255⟩

/-! ## Network writer (`network.ts`) -/

/-- `NetworkClient.createHeader` (`network.ts` lines 85-99): 4 ASCII magic
bytes `"ORGB"` then device id, packet type and payload size, each as a
little-endian uint32. -/
def createHeader (deviceId packetType dataSize : Nat) : List Nat :=
  [0x4f, 0x52, 0x47, 0x42] ++ u32le deviceId ++ u32le packetType ++ u32le dataSize

/-- The LED-update request payload built by `NetworkClient.updateLeds`
(`network.ts` lines 277-296): a uint32 total payload size `6 + 4*ledCount`,
a uint16 LED count, then per LED the validated r, g, b bytes followed by a
zero byte. -/
def updateLedsData (color : RGBInput) (ledCount : Nat) : List Nat :=
  let v := validateRGBColor color
  let totalSize := 6 + ledCount * 4
  u32le totalSize ++ u16le ledCount ++ (List.replicate ledCount [v.r, v.g, v.b, 0]).flatten

/-! ## High-level client (`client.ts`) -/

/-- The parsed controller data as consumed by `OpenRGBClient` (only the
fields the client reads are modelled): `serial` and `location` are
optional because the client accesses them as `(deviceData as any)`, where
they may be absent; `ledCount` stands for `deviceData.leds.length`; the
remaining fields are carried so that independence from them can be
stated. -/
structure DeviceInfo where
  name : String
  serial : Option String
  location : Option String
  modes : List String
  zones : List DeviceZone
  colors : List BinaryParser.Color
  ledCount : Nat

/-- A discovered device (`client.ts`, interface `Device`). -/
structure Device where
  ephemeralId : Nat
  stableId : String
  name : String
  ledCount : Nat
  directModeIndex : Nat
  data : Option DeviceInfo

/-- A per-device color-sync outcome (`client.ts`, interface
`SyncResult`). -/
structure SyncResult where
  deviceId : Nat
  success : Bool
  error : Option String
  deriving Repr, DecidableEq

/-- Substring test on character lists, modelling
`String.prototype.includes`. -/
def listHasSub (needle hay : List Char) : Bool :=
  (List.range (hay.length + 1)).any (fun k => (hay.drop k).take needle.length == needle)

/-- `mode.name.toLowerCase().includes('direct')` on one mode name. -/
def modeMatchesDirect (modeName : String) : Bool :=
  listHasSub "direct".data (modeName.data.map jsLowerChar)

/-- The `directModeIndex` scan in `discoverDevices` (`client.ts` lines
66-73): index of the first mode whose lower-cased name contains
`"direct"`. -/
def findDirectAux : Nat → List String → Option Nat
  | _, [] => none
  | j, m :: rest => if modeMatchesDirect m then some j else findDirectAux (j + 1) rest

/-- The selected direct-mode index, defaulting to 0 when no mode
matches. -/
def findDirectModeIndex (modes : List String) : Nat :=
  (findDirectAux 0 modes).getD 0

/-- `OpenRGBClient.computeStableId` (`client.ts` lines 224-232). -/
def computeStableId (info : DeviceInfo) : String :=
  hashFingerprint (buildDeviceFingerprint
    ⟨info.serial, info.location, info.name, info.ledCount⟩)

/-- The `Device` record assembled for a successfully fetched controller
(`client.ts` lines 64-84). -/
def deviceOfInfo (i : Nat) (info : DeviceInfo) : Device :=
  { ephemeralId := i
    stableId := computeStableId info
    name := info.name
    ledCount := info.ledCount
    directModeIndex := findDirectModeIndex info.modes
    data := some info }

/-- The placeholder `Device` pushed when fetching/parsing controller `i`
throws (`client.ts` lines 107-114). -/
def failedDevice (i : Nat) : Device :=
  { ephemeralId := i
    stableId := "failed-" ++ toString i
    name := "Device " ++ toString i ++ " (Failed)"
    ledCount := 0
    directModeIndex := 0
    data := none }

/-- The outcomes of the network requests issued during discovery, keyed by
controller index where applicable.  This stands for the behavior of the
`NetworkClient` the `OpenRGBClient` delegates to. -/
structure DiscoveryEnv where
  register : Except String Unit
  controllerCount : Except String Nat
  controllerData : Nat → Except String DeviceInfo
  modeSet : Nat → Except String Unit

/-- The per-controller discovery loop (`client.ts` lines 62-116): `n`
controllers remaining starting at index `i`; an individual fetch failure
yields the placeholder and the loop continues. -/
def discoverLoop (env : DiscoveryEnv) : Nat → Nat → List Device
  | 0, _ => []
  | n + 1, i =>
    (match env.controllerData i with
     | .ok info => deviceOfInfo i info
     | .error _ => failedDevice i) :: discoverLoop env n (i + 1)

/-- The ways `discoverDevices` can fail: the not-connected precondition
(`OpenRGBConnectionError`), an error propagated unchanged from outside the
`try` block, or the `OpenRGBError` wrapper thrown inside the `catch`
(`client.ts` line 125) — the spec's DiscoveryError. -/
inductive DiscoverFailure where
  | connection (msg : String)
  | propagated (msg : String)
  | discovery (msg : String)
  deriving Repr, DecidableEq

/-- `OpenRGBClient.discoverDevices` (`client.ts` lines 48-130), returning
the call's outcome together with the client's `devices` field after the
call (`prev` being its value before the call).  Client-name registration
happens before the `try` block, so its failure propagates unwrapped; a
count-query failure is caught and re-thrown wrapped as
`Device discovery failed: ...`; after a successful count query the loop
replaces the device list wholesale. -/
def discoverDevices (connected : Bool) (env : DiscoveryEnv) (prev : List Device) :
    Except DiscoverFailure (List Device) × List Device :=
  if connected = false then
    (.error (.connection "Client is not connected to OpenRGB server"), prev)
  else
    match env.register with
    | .error m => (.error (.propagated m), prev)
    | .ok _ =>
      match env.controllerCount with
      | .error m => (.error (.discovery ("Device discovery failed: " ++ m)), prev)
      | .ok n =>
        let devs := discoverLoop env n 0
        (.ok devs, devs)

/-- `OpenRGBClient.getDevices` (`client.ts` lines 210-212): a defensive
copy of the current device list (copying is the identity on the modelled
value). -/
def getDevices (devices : List Device) : List Device :=
  devices

/-- `OpenRGBClient.getDeviceCount` (`client.ts` lines 217-219). -/
def getDeviceCount (devices : List Device) : Nat :=
  devices.length

/-- The outcomes of the network requests issued during a color push. -/
structure SyncEnv where
  modeSet : Nat → Except String Unit
  updateLeds : Nat → Except String Unit

/-- The per-device loop of `setDevicesColor` (`client.ts` lines 154-202),
returning the result list in input order together with the ephemeral ids
for which an LED-update packet send was attempted.  A device with 0 LEDs
is skipped with a non-success result and no send; a mode-set failure is
caught and ignored; an `updateLeds` failure is captured into that device's
result. -/
def syncLoop (env : SyncEnv) : List Device → List SyncResult × List Nat
  | [] => ([], [])
  | d :: rest =>
    if d.ledCount = 0 then
      let (rs, ss) := syncLoop env rest
      (⟨d.ephemeralId, false, some "Device skipped (0 LEDs)"⟩ :: rs, ss)
    else
      let r : SyncResult :=
        match env.updateLeds d.ephemeralId with
        | .ok _ => ⟨d.ephemeralId, true, none⟩
        | .error m => ⟨d.ephemeralId, false, some m⟩
      let (rs, ss) := syncLoop env rest
      (r :: rs, d.ephemeralId :: ss)

/-- `OpenRGBClient.setDevicesColor` (`client.ts` lines 139-205): fails
with a ConnectionError when not connected, otherwise validates the color
and runs the per-device loop.  The result also carries the list of
ephemeral ids for which an LED-update packet was sent. -/
def setDevicesColor (connected : Bool) (env : SyncEnv) (devices : List Device)
    (color : RGBInput) (_setDirectModeOnUpdate : Bool) :
    Except String (List SyncResult × List Nat) :=
  if connected = false then
    .error "Client is not connected to OpenRGB server"
  else
    let _validatedColor := validateRGBColor color
    .ok (syncLoop env devices)

/-! ## Helper lemmas -/

theorem leNum_u32le (n : Nat) : leNum (u32le n) = n % 4294967296 := by
  simp [leNum, u32le]
  omega

theorem leNum_u16le (n : Nat) : leNum (u16le n) = n % 65536 := by
  simp [leNum, u16le]
  omega

theorem u32le_length (n : Nat) : (u32le n).length = 4 := by
  simp [u32le]

theorem u16le_length (n : Nat) : (u16le n).length = 2 := by
  simp [u16le]

theorem drop_take_two (d : List Nat) (off : Nat) (h : off + 2 ≤ d.length) :
    (d.drop off).take 2 = [d.getD off 0, d.getD (off + 1) 0] := by
  have h0 : off < d.length := by omega
  have h1 : off + 1 < d.length := by omega
  rw [List.drop_eq_getElem_cons h0, List.drop_eq_getElem_cons h1]
  simp only [List.take_succ_cons, List.take_zero, List.getD_eq_getElem _ _ h0,
    List.getD_eq_getElem _ _ h1]

theorem drop_take_four (d : List Nat) (off : Nat) (h : off + 4 ≤ d.length) :
    (d.drop off).take 4 =
      [d.getD off 0, d.getD (off + 1) 0, d.getD (off + 2) 0, d.getD (off + 3) 0] := by
  have h0 : off < d.length := by omega
  have h1 : off + 1 < d.length := by omega
  have h2 : off + 2 < d.length := by omega
  have h3 : off + 3 < d.length := by omega
  rw [List.drop_eq_getElem_cons h0, List.drop_eq_getElem_cons h1,
    List.drop_eq_getElem_cons h2, List.drop_eq_getElem_cons h3]
  simp only [List.take_succ_cons, List.take_zero, List.getD_eq_getElem _ _ h0,
    List.getD_eq_getElem _ _ h1, List.getD_eq_getElem _ _ h2, List.getD_eq_getElem _ _ h3]

theorem readUint16_eq_of_le (d : List Nat) (off : Nat) (h : off + 2 ≤ d.length) :
    BinaryParser.readUint16 ⟨d, off⟩ =
      .ok (d.getD off 0 + 256 * d.getD (off + 1) 0, ⟨d, off + 2⟩) := by
  rw [BinaryParser.readUint16]
  simp only [if_neg (by omega : ¬ (off + 2 > d.length))]
  rw [drop_take_two d off h]
  simp [leNum]

theorem readString_eq_of_le (d : List Nat) (off : Nat) (h : off + 2 ≤ d.length) :
    BinaryParser.readString ⟨d, off⟩ =
      (if d.getD off 0 + 256 * d.getD (off + 1) 0 = 0 then .ok ([], ⟨d, off + 2⟩)
       else if off + 2 + (d.getD off 0 + 256 * d.getD (off + 1) 0) > d.length then
         .error ⟨off + 2, d.length⟩
       else
         .ok ((d.drop (off + 2)).take (d.getD off 0 + 256 * d.getD (off + 1) 0),
              ⟨d, off + 2 + (d.getD off 0 + 256 * d.getD (off + 1) 0)⟩)) := by
  rw [BinaryParser.readString, readUint16_eq_of_le d off h]

/-! ## Claim theorems -/

/-- C7: for every triple (deviceId, commandId, payloadLength) of valid
uint32 values, the 16-byte request header built by `createHeader` starts
with the 4 ASCII magic bytes `"ORGB"`, and decoding the three fields back
as little-endian uint32 values at offsets 4, 8 and 12 yields the identical
triple. -/
theorem header_roundtrip (d c p : Nat) (hd : d < 4294967296) (hc : c < 4294967296)
    (hp : p < 4294967296) :
    (createHeader d c p).length = 16 ∧
    (createHeader d c p).take 4 = [0x4f, 0x52, 0x47, 0x42] ∧
    BinaryParser.readUint32 ⟨createHeader d c p, 4⟩ = .ok (d, ⟨createHeader d c p, 8⟩) ∧
    BinaryParser.readUint32 ⟨createHeader d c p, 8⟩ = .ok (c, ⟨createHeader d c p, 12⟩) ∧
    BinaryParser.readUint32 ⟨createHeader d c p, 12⟩ = .ok (p, ⟨createHeader d c p, 16⟩) := by
  refine ⟨by simp [createHeader, u32le], by simp [createHeader, u32le], ?_, ?_, ?_⟩ <;>
    · simp [createHeader, u32le, BinaryParser.readUint32, leNum]
      omega

/-- Witness for C7 at the concrete triple (1, 1050, 26). -/
theorem header_roundtrip_witness :
    BinaryParser.readUint32 ⟨createHeader 1 1050 26, 4⟩ =
      .ok (1, ⟨createHeader 1 1050 26, 8⟩) ∧
    BinaryParser.readUint32 ⟨createHeader 1 1050 26, 8⟩ =
      .ok (1050, ⟨createHeader 1 1050 26, 12⟩) :=
  ⟨(header_roundtrip 1 1050 26 (by decide) (by decide) (by decide)).2.2.1,
   (header_roundtrip 1 1050 26 (by decide) (by decide) (by decide)).2.2.2.1⟩

/-- C3: every `BinaryParser` read operation (`readUint32`, `readUint16`,
`readString`, `readRGBColor`, `skip`), on every buffer and at every cursor
position, fails with a `ParseError` carrying the current offset and the
total buffer length exactly when the requested span does not fit in the
buffer; when the span fits it returns the value decoded little-endian from
exactly those bytes and advances the cursor by the span length, never
returning truncated or zero-filled data. -/
theorem parser_reads_spec (d : List Nat) (off : Nat) :
    (d.length < off + 4 →
      BinaryParser.readUint32 ⟨d, off⟩ = .error ⟨off, d.length⟩) ∧
    (off + 4 ≤ d.length →
      BinaryParser.readUint32 ⟨d, off⟩ =
        .ok (d.getD off 0 + 256 * d.getD (off + 1) 0 + 65536 * d.getD (off + 2) 0 +
               16777216 * d.getD (off + 3) 0, ⟨d, off + 4⟩)) ∧
    (d.length < off + 2 →
      BinaryParser.readUint16 ⟨d, off⟩ = .error ⟨off, d.length⟩) ∧
    (off + 2 ≤ d.length →
      BinaryParser.readUint16 ⟨d, off⟩ =
        .ok (d.getD off 0 + 256 * d.getD (off + 1) 0, ⟨d, off + 2⟩)) ∧
    (d.length < off + 4 →
      BinaryParser.readRGBColor ⟨d, off⟩ = .error ⟨off, d.length⟩) ∧
    (off + 4 ≤ d.length →
      BinaryParser.readRGBColor ⟨d, off⟩ =
        .ok (⟨d.getD off 0, d.getD (off + 1) 0, d.getD (off + 2) 0, d.getD (off + 3) 0⟩,
             ⟨d, off + 4⟩)) ∧
    (∀ n : Nat,
      (d.length < off + n → BinaryParser.skip ⟨d, off⟩ n = .error ⟨off, d.length⟩) ∧
      (off + n ≤ d.length → BinaryParser.skip ⟨d, off⟩ n = .ok ⟨d, off + n⟩)) ∧
    (d.length < off + 2 →
      BinaryParser.readString ⟨d, off⟩ = .error ⟨off, d.length⟩) ∧
    (off + 2 ≤ d.length →
      (d.getD off 0 + 256 * d.getD (off + 1) 0 = 0 →
        BinaryParser.readString ⟨d, off⟩ = .ok ([], ⟨d, off + 2⟩)) ∧
      (0 < d.getD off 0 + 256 * d.getD (off + 1) 0 →
        (d.length < off + 2 + (d.getD off 0 + 256 * d.getD (off + 1) 0) →
          BinaryParser.readString ⟨d, off⟩ = .error ⟨off + 2, d.length⟩) ∧
        (off + 2 + (d.getD off 0 + 256 * d.getD (off + 1) 0) ≤ d.length →
          BinaryParser.readString ⟨d, off⟩ =
            .ok ((d.drop (off + 2)).take (d.getD off 0 + 256 * d.getD (off + 1) 0),
                 ⟨d, off + 2 + (d.getD off 0 + 256 * d.getD (off + 1) 0)⟩)))) := by
  refine ⟨?_, ?_, ?_, fun h => readUint16_eq_of_le d off h, ?_, ?_, ?_, ?_, ?_⟩
  · intro h
    rw [BinaryParser.readUint32]
    simp [if_pos (by omega : off + 4 > d.length)]
  · intro h
    rw [BinaryParser.readUint32]
    simp only [if_neg (by omega : ¬ (off + 4 > d.length))]
    rw [drop_take_four d off h]
    simp [leNum]
    ring
  · intro h
    rw [BinaryParser.readUint16]
    simp [if_pos (by omega : off + 2 > d.length)]
  · intro h
    rw [BinaryParser.readRGBColor]
    simp [if_pos (by omega : off + 4 > d.length)]
  · intro h
    rw [BinaryParser.readRGBColor]
    simp [if_neg (by omega : ¬ (off + 4 > d.length))]
  · intro n
    constructor
    · intro h
      rw [BinaryParser.skip]
      simp [if_pos (by omega : off + n > d.length)]
    · intro h
      rw [BinaryParser.skip]
      simp [if_neg (by omega : ¬ (off + n > d.length))]
  · intro h
    rw [BinaryParser.readString, BinaryParser.readUint16]
    simp [if_pos (by omega : off + 2 > d.length)]
  · intro h
    refine ⟨?_, ?_⟩
    · intro hlen
      rw [readString_eq_of_le d off h, if_pos hlen]
    · intro hpos
      constructor
      · intro hover
        rw [readString_eq_of_le d off h,
          if_neg (by omega : ¬ (d.getD off 0 + 256 * d.getD (off + 1) 0 = 0)),
          if_pos (by omega : off + 2 + (d.getD off 0 + 256 * d.getD (off + 1) 0) > d.length)]
      · intro hfit
        rw [readString_eq_of_le d off h,
          if_neg (by omega : ¬ (d.getD off 0 + 256 * d.getD (off + 1) 0 = 0)),
          if_neg (by omega : ¬ (off + 2 + (d.getD off 0 + 256 * d.getD (off + 1) 0) > d.length))]

/-- Witness for C3: concrete success and failure cases for the reads on
small buffers. -/
theorem parser_reads_spec_witness :
    BinaryParser.readUint32 ⟨[1, 2, 3, 4], 0⟩ = .ok (67305985, ⟨[1, 2, 3, 4], 4⟩) ∧
    BinaryParser.readUint16 ⟨[5], 0⟩ = .error ⟨0, 1⟩ ∧
    BinaryParser.readString ⟨[3, 0, 7, 8, 9], 0⟩ = .ok ([7, 8, 9], ⟨[3, 0, 7, 8, 9], 5⟩) ∧
    BinaryParser.readString ⟨[3, 0, 7], 0⟩ = .error ⟨2, 3⟩ := by
  refine ⟨?_, ?_, ?_, ?_⟩
  · have h := (parser_reads_spec [1, 2, 3, 4] 0).2.1 (by decide)
    simpa using h
  · exact (parser_reads_spec [5] 0).2.2.1 (by decide)
  · have h := ((((parser_reads_spec [3, 0, 7, 8, 9] 0).2.2.2.2.2.2.2.2 (by decide)).2
      (by decide)).2 (by decide))
    simpa using h
  · have h := ((((parser_reads_spec [3, 0, 7] 0).2.2.2.2.2.2.2.2 (by decide)).2
      (by decide)).1 (by decide))
    simpa using h

theorem clampChannel_le (v : Option Int) (dflt : Nat) (hd : dflt ≤ 255) :
    clampChannel v dflt ≤ 255 := by
  rcases v with _ | x
  · simpa [clampChannel] using hd
  · simp only [clampChannel]
    omega

theorem flatten_replicate_drop {α : Type} (blk : List α) (hb : blk.length = 4) :
    ∀ i n, i < n →
      ((List.replicate n blk).flatten).drop (4 * i) = (List.replicate (n - i) blk).flatten := by
  intro i
  induction i with
  | zero => intro n h; simp
  | succ i ih =>
    intro n h
    match n, h with
    | m + 1, h =>
      rw [List.replicate_succ, List.flatten_cons]
      have h4 : 4 * (i + 1) = 4 + 4 * i := by ring
      rw [h4, ← List.drop_drop, List.drop_left' hb, ih m (by omega)]
      have hmi : m + 1 - (i + 1) = m - i := by omega
      rw [hmi]

theorem flatten_replicate_length {α : Type} (blk : List α) (hb : blk.length = 4) (n : Nat) :
    ((List.replicate n blk).flatten).length = 4 * n := by
  induction n with
  | zero => simp
  | succ m ih =>
    rw [List.replicate_succ, List.flatten_cons]
    simp only [List.length_append, ih, hb]
    ring

/-- C8: for every input color and every uint16-representable LED count
`n`, the LED-update payload is exactly `6 + 4*n` bytes: a little-endian
uint32 total payload size equal to `6 + 4*n`, a little-endian uint16 LED
count equal to `n`, then for each of the `n` LEDs the clamped r, g, b
bytes followed by a zero byte in place of alpha; the validated color has
every channel in `[0, 255]`, with absent/invalid channels defaulting to 0
(255 for alpha). -/
theorem updateLeds_payload (color : RGBInput) (n : Nat) (hn : n < 65536) :
    (updateLedsData color n).length = 6 + 4 * n ∧
    ((updateLedsData color n).take 4 = u32le (6 + 4 * n) ∧
      leNum ((updateLedsData color n).take 4) = 6 + 4 * n) ∧
    (((updateLedsData color n).drop 4).take 2 = u16le n ∧
      leNum (((updateLedsData color n).drop 4).take 2) = n) ∧
    (∀ i, i < n →
      ((updateLedsData color n).drop (6 + 4 * i)).take 4 =
        [(validateRGBColor color).r, (validateRGBColor color).g,
         (validateRGBColor color).b, 0]) ∧
    ((validateRGBColor color).r ≤ 255 ∧ (validateRGBColor color).g ≤ 255 ∧
      (validateRGBColor color).b ≤ 255 ∧ (validateRGBColor color).a ≤ 255) ∧
    (color.r = none → (validateRGBColor color).r = 0) ∧
    (color.g = none → (validateRGBColor color).g = 0) ∧
    (color.b = none → (validateRGBColor color).b = 0) ∧
    (color.a = none → (validateRGBColor color).a = 255) := by
  have hmul : n * 4 = 4 * n := by ring
  have hblk : ([(validateRGBColor color).r, (validateRGBColor color).g,
      (validateRGBColor color).b, 0] : List Nat).length = 4 := by simp
  have hflatlen := flatten_replicate_length _ hblk n
  have hdef : updateLedsData color n =
      u32le (6 + 4 * n) ++ u16le n ++
        (List.replicate n [(validateRGBColor color).r, (validateRGBColor color).g,
          (validateRGBColor color).b, 0]).flatten := by
    rw [updateLedsData]
    rw [hmul]
  refine ⟨?_, ⟨?_, ?_⟩, ⟨?_, ?_⟩, ?_, ?_, ?_, ?_, ?_, ?_⟩
  · rw [hdef]
    simp only [List.length_append, u32le_length, u16le_length, hflatlen]
  · rw [hdef, List.append_assoc, List.take_left' (u32le_length _)]
  · rw [hdef, List.append_assoc, List.take_left' (u32le_length _), leNum_u32le]
    omega
  · rw [hdef, List.append_assoc, List.drop_left' (u32le_length _),
      List.take_left' (u16le_length _)]
  · rw [hdef, List.append_assoc, List.drop_left' (u32le_length _),
      List.take_left' (u16le_length _), leNum_u16le]
    omega
  · intro i hi
    have h6 : 6 + 4 * i = (u32le (6 + 4 * n) ++ u16le n).length + 4 * i := by
      simp only [List.length_append, u32le_length, u16le_length]
    rw [hdef, h6, List.drop_append, flatten_replicate_drop _ hblk i n hi]
    have hk : n - i = (n - i - 1) + 1 := by omega
    rw [hk, List.replicate_succ, List.flatten_cons, List.take_left' hblk]
  · exact ⟨clampChannel_le _ _ (by omega), clampChannel_le _ _ (by omega),
      clampChannel_le _ _ (by omega), clampChannel_le _ _ (by omega)⟩
  · intro h
    simp [validateRGBColor, h, clampChannel]
  · intro h
    simp [validateRGBColor, h, clampChannel]
  · intro h
    simp [validateRGBColor, h, clampChannel]
  · intro h
    simp [validateRGBColor, h, clampChannel]

/-- Witness for C8 at a concrete color (r = 300 clamps to 255, missing
alpha defaults to 255) and LED count 2. -/
theorem updateLeds_payload_witness :
    (updateLedsData ⟨some 300, some 10, some (-5), none⟩ 2).length = 6 + 4 * 2 ∧
    ((updateLedsData ⟨some 300, some 10, some (-5), none⟩ 2).drop (6 + 4 * 1)).take 4 =
      [255, 10, 0, 0] ∧
    (validateRGBColor ⟨some 300, some 10, some (-5), none⟩).a = 255 := by
  have h := updateLeds_payload ⟨some 300, some 10, some (-5), none⟩ 2 (by decide)
  refine ⟨h.1, ?_, ?_⟩
  · have h2 := h.2.2.2.1 1 (by decide)
    rw [h2]
    decide
  · exact h.2.2.2.2.2.2.2.2 rfl

theorem syncLoop_parts (env : SyncEnv) : ∀ l : List Device,
    (syncLoop env l).1.length = l.length ∧
    (syncLoop env l).2 = (l.filter (fun d => d.ledCount != 0)).map (fun d => d.ephemeralId) ∧
    ∀ (k : Nat) (d : Device), l[k]? = some d → (syncLoop env l).1[k]? =
      some (if d.ledCount = 0 then ⟨d.ephemeralId, false, some "Device skipped (0 LEDs)"⟩
            else
              match env.updateLeds d.ephemeralId with
              | .ok _ => ⟨d.ephemeralId, true, none⟩
              | .error m => ⟨d.ephemeralId, false, some m⟩) := by
  intro l
  induction l with
  | nil => simp [syncLoop]
  | cons d rest ih =>
    by_cases hled : d.ledCount = 0
    · have hstep : syncLoop env (d :: rest) =
          (⟨d.ephemeralId, false, some "Device skipped (0 LEDs)"⟩ :: (syncLoop env rest).1,
           (syncLoop env rest).2) := by
        simp [syncLoop, hled]
      refine ⟨?_, ?_, ?_⟩
      · rw [hstep]
        simp [ih.1]
      · rw [hstep]
        simp [List.filter, hled, ih.2.1]
      · intro k dd hk
        match k with
        | 0 =>
          simp only [List.getElem?_cons_zero, Option.some_inj] at hk
          rw [hstep, ← hk]
          simp [hled]
        | k + 1 =>
          simp only [List.getElem?_cons_succ] at hk
          rw [hstep]
          simpa using ih.2.2 k dd hk
    · have hb : (d.ledCount != 0) = true := by simpa using hled
      have hstep : syncLoop env (d :: rest) =
          ((match env.updateLeds d.ephemeralId with
            | .ok _ => (⟨d.ephemeralId, true, none⟩ : SyncResult)
            | .error m => ⟨d.ephemeralId, false, some m⟩) :: (syncLoop env rest).1,
           d.ephemeralId :: (syncLoop env rest).2) := by
        simp [syncLoop, hled]
      refine ⟨?_, ?_, ?_⟩
      · rw [hstep]
        simp [ih.1]
      · rw [hstep]
        simp [List.filter, hb, ih.2.1]
      · intro k dd hk
        match k with
        | 0 =>
          simp only [List.getElem?_cons_zero, Option.some_inj] at hk
          rw [hstep, ← hk]
          simp [hled]
        | k + 1 =>
          simp only [List.getElem?_cons_succ] at hk
          rw [hstep]
          simpa using ih.2.2 k dd hk

/-- C2: for every connected client and every input device list,
`setDevicesColor` returns exactly one result per input device in input
order; a device with 0 LEDs is skipped (no LED-update packet is attempted
for it) and yields a non-success result whose error mentions "0 LEDs"; a
per-device send failure is captured into that device's result without
stopping the batch; when the client is not connected the operation fails
with a ConnectionError instead. -/
theorem setDevicesColor_spec (connected : Bool) (env : SyncEnv) (devices : List Device)
    (color : RGBInput) (sdm : Bool) :
    (connected = false →
      setDevicesColor connected env devices color sdm =
        .error "Client is not connected to OpenRGB server") ∧
    (connected = true →
      ∃ rs ss, setDevicesColor connected env devices color sdm = .ok (rs, ss) ∧
        rs.length = devices.length ∧
        (∀ k, k < devices.length → ∃ (d : Device) (r : SyncResult),
          devices[k]? = some d ∧ rs[k]? = some r ∧
          r.deviceId = d.ephemeralId ∧
          (d.ledCount = 0 →
            r.success = false ∧ r.error = some "Device skipped (0 LEDs)" ∧
            ∃ pre post, r.error = some (pre ++ "0 LEDs" ++ post)) ∧
          (d.ledCount ≠ 0 →
            (env.updateLeds d.ephemeralId = .ok () → r.success = true ∧ r.error = none) ∧
            (∀ m, env.updateLeds d.ephemeralId = .error m →
              r.success = false ∧ r.error = some m))) ∧
        ss = (devices.filter (fun d => d.ledCount != 0)).map (fun d => d.ephemeralId)) := by
  constructor
  · intro h
    rw [setDevicesColor, h]
    simp
  · intro h
    have hparts := syncLoop_parts env devices
    refine ⟨(syncLoop env devices).1, (syncLoop env devices).2, ?_, hparts.1, ?_, hparts.2.1⟩
    · rw [setDevicesColor, h]
      simp
    · intro k hk
      have hkd : ∃ d, devices[k]? = some d := by
        rw [List.getElem?_eq_getElem hk]
        exact ⟨devices[k], rfl⟩
      obtain ⟨d, hd⟩ := hkd
      refine ⟨d, _, hd, hparts.2.2 k d hd, ?_⟩
      by_cases hled : d.ledCount = 0
      · simp only [if_pos hled]
        refine ⟨?_, fun _ => ⟨?_, ?_, "Device skipped (", ")", ?_⟩, fun hc => absurd hled hc⟩
        all_goals trivial
      · simp only [if_neg hled]
        refine ⟨?_, fun hc => absurd hc hled, fun _ => ⟨?_, ?_⟩⟩
        · cases hu : env.updateLeds d.ephemeralId <;> simp [hu]
        · intro hok
          simp [hok]
        · intro m hm
          simp [hm]

/-- Witness for C2: a two-device batch (0 LEDs and 5 LEDs) on a connected
client, plus the not-connected failure. -/
theorem setDevicesColor_spec_witness :
    setDevicesColor false ⟨fun _ => .ok (), fun _ => .ok ()⟩ [] ⟨none, none, none, none⟩ false =
      .error "Client is not connected to OpenRGB server" ∧
    ∃ rs ss,
      setDevicesColor true ⟨fun _ => .ok (), fun _ => .ok ()⟩
          [⟨0, "a", "x", 0, 0, none⟩, ⟨1, "b", "y", 5, 0, none⟩]
          ⟨none, none, none, none⟩ false = .ok (rs, ss) ∧
      rs.length = 2 := by
  constructor
  · exact (setDevicesColor_spec false ⟨fun _ => .ok (), fun _ => .ok ()⟩ []
      ⟨none, none, none, none⟩ false).1 rfl
  · obtain ⟨rs, ss, heq, hlen, -, -⟩ := (setDevicesColor_spec true
      ⟨fun _ => .ok (), fun _ => .ok ()⟩
      [⟨0, "a", "x", 0, 0, none⟩, ⟨1, "b", "y", 5, 0, none⟩]
      ⟨none, none, none, none⟩ false).2 rfl
    exact ⟨rs, ss, heq, by rw [hlen]; rfl⟩

theorem discoverLoop_length (env : DiscoveryEnv) : ∀ n i, (discoverLoop env n i).length = n := by
  intro n
  induction n with
  | zero => intro i; rfl
  | succ m ih =>
    intro i
    simp [discoverLoop, ih]

theorem discoverLoop_get (env : DiscoveryEnv) : ∀ n i k, k < n →
    (discoverLoop env n i)[k]? =
      some (match env.controllerData (i + k) with
            | .ok info => deviceOfInfo (i + k) info
            | .error _ => failedDevice (i + k)) := by
  intro n
  induction n with
  | zero => intro i k h; omega
  | succ m ih =>
    intro i k h
    match k with
    | 0 => simp [discoverLoop]
    | k + 1 =>
      have := ih (i + 1) k (by omega)
      rw [discoverLoop]
      simpa [Nat.add_assoc, Nat.add_comm 1 k] using this

/-- C1 (amended): for a connected client whose registration succeeds, if
the count query reports `n` controllers, `discoverDevices` returns exactly
`n` Device entries, with every index whose controller-data fetch fails
occupying its slot as a placeholder (`stableId = "failed-" + k`,
`ledCount = 0`, `data = null`) while the loop continues; a count-query
failure fails the whole operation with a DiscoveryError wrapping the
message and returns no devices; a registration failure also fails the
whole operation returning no devices, but by propagating the underlying
error unwrapped rather than as a DiscoveryError. -/
theorem discoverDevices_spec (env : DiscoveryEnv) (prev : List Device) :
    (∀ m, env.register = .error m →
      discoverDevices true env prev = (.error (.propagated m), prev) ∧
      ∀ s, (DiscoverFailure.propagated m) ≠ .discovery s) ∧
    (env.register = .ok () →
      (∀ m, env.controllerCount = .error m →
        discoverDevices true env prev =
          (.error (.discovery ("Device discovery failed: " ++ m)), prev)) ∧
      (∀ n, env.controllerCount = .ok n →
        ∃ devs, discoverDevices true env prev = (.ok devs, devs) ∧
          devs.length = n ∧
          ∀ k, k < n →
            (∀ m, env.controllerData k = .error m →
              ∃ dv, devs[k]? = some dv ∧ dv.ephemeralId = k ∧
                dv.stableId = "failed-" ++ toString k ∧ dv.ledCount = 0 ∧ dv.data = none) ∧
            (∀ info, env.controllerData k = .ok info →
              devs[k]? = some (deviceOfInfo k info) ∧
              (deviceOfInfo k info).data = some info ∧
              (deviceOfInfo k info).ledCount = info.ledCount ∧
              (deviceOfInfo k info).stableId = computeStableId info))) := by
  refine ⟨?_, ?_⟩
  · intro m hm
    constructor
    · rw [discoverDevices]
      simp [hm]
    · intro s hs
      cases hs
  · intro hreg
    constructor
    · intro m hm
      rw [discoverDevices]
      simp [hreg, hm]
    · intro n hn
      refine ⟨discoverLoop env n 0, ?_, discoverLoop_length env n 0, ?_⟩
      · rw [discoverDevices]
        simp [hreg, hn]
      · intro k hk
        have hget := discoverLoop_get env n 0 k hk
        simp only [Nat.zero_add] at hget
        constructor
        · intro m hm
          rw [hm] at hget
          exact ⟨failedDevice k, hget, rfl, rfl, rfl, rfl⟩
        · intro info hinfo
          rw [hinfo] at hget
          exact ⟨hget, rfl, rfl, rfl⟩

/-- Witness for C1: a concrete environment with three controllers of
which the middle one fails. -/
theorem discoverDevices_spec_witness :
    ∃ devs,
      discoverDevices true
          ⟨.ok (), .ok 3,
           fun i => if i = 1 then .error "mid-parse failure"
             else .ok ⟨"Dev", some "S", some "L", ["Direct"], [], [], 5⟩,
           fun _ => .ok ()⟩ [] = (.ok devs, devs) ∧
      devs.length = 3 ∧
      ∃ dv, devs[1]? = some dv ∧ dv.stableId = "failed-" ++ toString 1 ∧
        dv.ledCount = 0 ∧ dv.data = none := by
  obtain ⟨devs, heq, hlen, hk⟩ := ((discoverDevices_spec
      ⟨.ok (), .ok 3,
       fun i => if i = 1 then .error "mid-parse failure"
         else .ok ⟨"Dev", some "S", some "L", ["Direct"], [], [], 5⟩,
       fun _ => .ok ()⟩ []).2 rfl).2 3 rfl
  obtain ⟨dv, hdv, -, hsid, hled, hdata⟩ := (hk 1 (by omega)).1 "mid-parse failure" rfl
  exact ⟨devs, heq, hlen, dv, hdv, hsid, hled, hdata⟩

/-- Counterexample for C1 as frozen: when the client-name registration
fails, the whole operation fails, but the error is the underlying one
propagated unwrapped — not a DiscoveryError wrapper (which the code only
produces for failures inside the `try` block, such as the count query). -/
theorem discoverDevices_registration_not_wrapped :
    (discoverDevices true ⟨.error "boom", .ok 2, fun _ => .error "x", fun _ => .ok ()⟩ []).1 =
      .error (.propagated "boom") ∧
    ∀ m, (discoverDevices true ⟨.error "boom", .ok 2, fun _ => .error "x", fun _ => .ok ()⟩
      []).1 ≠ .error (.discovery m) := by
  constructor
  · rfl
  · intro m h
    have h2 : (DiscoverFailure.propagated "boom") = .discovery m := by
      have := h
      rw [show (discoverDevices true
          ⟨.error "boom", .ok 2, fun _ => .error "x", fun _ => .ok ()⟩ []).1 =
          .error (.propagated "boom") from rfl] at this
      exact Except.error.inj this
    cases h2

/-- C6: `buildDeviceFingerprint` substitutes the fixed per-field
placeholder when an input is absent or blank; a surviving input is
normalized by trimming, lower-casing and collapsing internal whitespace
runs to single spaces; the result has the shape
`"{serial}|{location}|{name}|leds:{ledCount}"`; and for all-absent string
fields with ledCount 5 the result is exactly
`"serial:false|loc:false|name:false|leds:5"`. -/
theorem buildFingerprint_spec :
    (∀ ph : String, normField none ph = ph) ∧
    (∀ ph : String, normField (some "") ph = ph) ∧
    (∀ (ph s : String), s ≠ "" → (jsTrim s.data).map jsLowerChar = [] →
      normField (some s) ph = ph) ∧
    (∀ (ph s : String), s ≠ "" →
      (jsTrim s.data).map jsLowerChar ≠ [] →
      isAllZeros ((jsTrim s.data).map jsLowerChar) = false →
      normField (some s) ph =
        String.mk (collapseWsAux false ((jsTrim s.data).map jsLowerChar))) ∧
    (∀ parts : FingerprintParts,
      buildDeviceFingerprint parts =
        normField parts.serial "serial:false" ++ "|" ++ normField parts.location "loc:false" ++
          "|" ++ normField parts.name "name:false" ++ "|" ++ "leds:" ++
          toString parts.ledCount) ∧
    normField (some "  Foo   BAR ") "x" = "foo bar" ∧
    buildDeviceFingerprint ⟨none, none, none, 5⟩ =
      "serial:false|loc:false|name:false|leds:5" := by
  refine ⟨fun ph => rfl, fun ph => rfl, ?_, ?_, fun parts => rfl, by decide, by decide⟩
  · intro ph s hne ht
    simp [normField, hne, ht]
  · intro ph s hne ht hz
    simp [normField, hne, ht, hz]

/-- Witness for C6: the hypothesis-bearing normalization clauses applied
at a concrete non-blank input. -/
theorem buildFingerprint_spec_witness :
    normField (some "  Foo   BAR ") "serial:false" =
      String.mk (collapseWsAux false ((jsTrim "  Foo   BAR ".data).map jsLowerChar)) ∧
    normField none "loc:false" = "loc:false" := by
  constructor
  · exact buildFingerprint_spec.2.2.2.1 "serial:false" "  Foo   BAR " (by decide) (by decide)
      (by decide)
  · exact buildFingerprint_spec.1 "loc:false"

/-- Counterexample for C9 as frozen: a non-blank location consisting
entirely of zero digits is replaced by its placeholder token rather than
appearing normalized in the fingerprint. -/
theorem zeroDigit_location_counterexample :
    buildDeviceFingerprint ⟨some "s1", some "000", some "x", 1⟩ = "s1|loc:false|x|leds:1" ∧
    buildDeviceFingerprint ⟨some "s1", some "000", some "x", 1⟩ ≠ "s1|000|x|leds:1" := by
  constructor
  · decide
  · decide

/-- C9 (amended): the all-zero-digit placeholder substitution of the
`norm` helper applies uniformly to all three string fields — serial,
location and name: an input whose trimmed lower-cased form consists
entirely of zero digits is treated exactly like an absent input. -/
theorem zeroDigit_placeholder_uniform :
    (∀ (v ph : String), v ≠ "" →
      isAllZeros ((jsTrim v.data).map jsLowerChar) = true →
      normField (some v) ph = ph) ∧
    (∀ (ser nm : Option String) (c : Nat) (loc : String), loc ≠ "" →
      isAllZeros ((jsTrim loc.data).map jsLowerChar) = true →
      buildDeviceFingerprint ⟨ser, some loc, nm, c⟩ =
        buildDeviceFingerprint ⟨ser, none, nm, c⟩) ∧
    (∀ (ser lc : Option String) (c : Nat) (nm : String), nm ≠ "" →
      isAllZeros ((jsTrim nm.data).map jsLowerChar) = true →
      buildDeviceFingerprint ⟨ser, lc, some nm, c⟩ =
        buildDeviceFingerprint ⟨ser, lc, none, c⟩) := by
  have hnorm : ∀ (v ph : String), v ≠ "" →
      isAllZeros ((jsTrim v.data).map jsLowerChar) = true →
      normField (some v) ph = ph := by
    intro v ph hne hz
    have ht : (jsTrim v.data).map jsLowerChar ≠ [] := by
      intro h
      rw [h] at hz
      simp [isAllZeros] at hz
    simp [normField, hne, ht, hz]
  refine ⟨hnorm, ?_, ?_⟩
  · intro ser nm c loc hne hz
    simp only [buildDeviceFingerprint, hnorm loc "loc:false" hne hz]
    rfl
  · intro ser lc c nm hne hz
    simp only [buildDeviceFingerprint, hnorm nm "name:false" hne hz]
    rfl

/-- Witness for C9 (amended) at the concrete all-zero location and
name. -/
theorem zeroDigit_placeholder_uniform_witness :
    buildDeviceFingerprint ⟨some "s1", some "000", some "x", 1⟩ =
      buildDeviceFingerprint ⟨some "s1", none, some "x", 1⟩ ∧
    buildDeviceFingerprint ⟨some "s1", some "L", some " 00 ", 2⟩ =
      buildDeviceFingerprint ⟨some "s1", some "L", none, 2⟩ := by
  constructor
  · exact zeroDigit_placeholder_uniform.2.1 (some "s1") (some "x") 1 "000" (by decide) (by decide)
  · exact zeroDigit_placeholder_uniform.2.2 (some "s1") (some "L") 2 " 00 " (by decide) (by decide)

/-- C10: if `discoverDevices` fails as a whole — the registration or the
count query throws — the client's internal device list is unchanged, so
`getDevices` and `getDeviceCount` afterwards return the same snapshot as
before the call. -/
theorem discoverDevices_preserves_list_on_failure (env : DiscoveryEnv) (prev : List Device) :
    (∀ m, env.register = .error m →
      (discoverDevices true env prev).2 = prev ∧
      getDevices (discoverDevices true env prev).2 = getDevices prev ∧
      getDeviceCount (discoverDevices true env prev).2 = getDeviceCount prev) ∧
    (∀ m, env.register = .ok () → env.controllerCount = .error m →
      (discoverDevices true env prev).2 = prev ∧
      getDevices (discoverDevices true env prev).2 = getDevices prev ∧
      getDeviceCount (discoverDevices true env prev).2 = getDeviceCount prev) := by
  constructor
  · intro m hm
    have h : (discoverDevices true env prev).2 = prev := by
      rw [discoverDevices]
      simp [hm]
    exact ⟨h, by rw [h], by rw [h]⟩
  · intro m hreg hm
    have h : (discoverDevices true env prev).2 = prev := by
      rw [discoverDevices]
      simp [hreg, hm]
    exact ⟨h, by rw [h], by rw [h]⟩

/-- C4: `DeviceData.parse` never propagates a failure: for every input
buffer it returns the device populated up to the point where the parse
sequence failed (or the fully parsed device on success); in particular an
empty buffer yields the all-default descriptor, and a buffer truncated
after the name string yields a descriptor with only the name populated and
every later field at its default. -/
theorem deviceParse_total_spec :
    (∀ data : List Nat,
      (∃ d, parseSequence (⟨data, 0⟩, DeviceDataRaw.default) = .error d ∧
        DeviceDataRaw.parse data = d) ∨
      (∃ u p d, parseSequence (⟨data, 0⟩, DeviceDataRaw.default) = .ok (u, p, d) ∧
        DeviceDataRaw.parse data = d)) ∧
    DeviceDataRaw.parse [] = DeviceDataRaw.default ∧
    DeviceDataRaw.parse [100, 0, 0, 0, 1, 0, 0, 0, 3, 0, 97, 98, 99] =
      { DeviceDataRaw.default with name := [97, 98, 99] } := by
  refine ⟨?_, by decide, by decide⟩
  intro data
  cases h : parseSequence (⟨data, 0⟩, DeviceDataRaw.default) with
  | error d =>
    exact Or.inl ⟨d, rfl, by simp [DeviceDataRaw.parse, h]⟩
  | ok v =>
    obtain ⟨u, p, d⟩ := v
    exact Or.inr ⟨u, p, d, rfl, by simp [DeviceDataRaw.parse, h]⟩

theorem nibChar_mem (n : Nat) : nibChar n ∈ hexDigits := by
  have hlt : n % 16 < hexDigits.length := by
    simp [hexDigits]
    omega
  rw [nibChar, List.getD_eq_getElem _ _ hlt]
  exact List.getElem_mem hlt

theorem mem_wordHex (c : Char) (w : Nat) (h : c ∈ wordHex w) : c ∈ hexDigits := by
  simp only [wordHex, List.mem_cons, List.not_mem_nil, or_false] at h
  rcases h with h | h | h | h | h | h | h | h <;> (subst h; exact nibChar_mem _)

theorem mem_sha256HexChars (c : Char) (m : List Nat) (h : c ∈ sha256HexChars m) :
    c ∈ hexDigits := by
  have step : ∀ (l : List Char) (w : Nat), (c ∈ l → c ∈ hexDigits) →
      c ∈ l ++ wordHex w → c ∈ hexDigits := by
    intro l w hl hm
    rcases List.mem_append.mp hm with h2 | h2
    · exact hl h2
    · exact mem_wordHex c w h2
  simp only [sha256HexChars] at h
  exact step _ _ (step _ _ (step _ _ (step _ _ (step _ _ (step _ _ (step _ _
    (fun h1 => mem_wordHex c _ h1))))))) h

theorem sha256HexChars_length (m : List Nat) : (sha256HexChars m).length = 64 := by
  simp [sha256HexChars, wordHex]

/-- Witness for C10 at a concrete failing environment and a non-empty
previous device list. -/
theorem discoverDevices_preserves_list_witness :
    (discoverDevices true ⟨.ok (), .error "count failed", fun _ => .error "x", fun _ => .ok ()⟩
      [⟨0, "id0", "n", 3, 0, none⟩]).2 = [⟨0, "id0", "n", 3, 0, none⟩] :=
  ((discoverDevices_preserves_list_on_failure
    ⟨.ok (), .error "count failed", fun _ => .error "x", fun _ => .ok ()⟩
    [⟨0, "id0", "n", 3, 0, none⟩]).2 "count failed" rfl rfl).1

/-- C5: `hashFingerprint` is deterministic and always returns 16
lowercase-hexadecimal characters; the stableId depends only on the
(serial, location, name, ledCount) tuple, so identical tuples yield
identical stableIds and changes to fields outside the tuple (mode list
contents, zone data, colors) leave it unchanged; and at the spec's example
identity fields, changing only the ledCount (5 to 6) changes the
stableId. -/
theorem stableId_spec :
    (∀ fp : String, hashFingerprint fp = hashFingerprint fp) ∧
    (∀ fp : String, (hashFingerprint fp).length = 16 ∧
      ∀ c ∈ (hashFingerprint fp).data, c ∈ hexDigits) ∧
    (∀ d1 d2 : DeviceInfo, d1.serial = d2.serial → d1.location = d2.location →
      d1.name = d2.name → d1.ledCount = d2.ledCount →
      computeStableId d1 = computeStableId d2) ∧
    computeStableId
        ⟨"Alpha Device", some "A1B2C3D4", some "usb-0000:00:14.0-1", ["Direct"], [], [], 5⟩ ≠
      computeStableId
        ⟨"Alpha Device", some "A1B2C3D4", some "usb-0000:00:14.0-1", ["Direct"], [], [], 6⟩ := by
  refine ⟨fun fp => rfl, ?_, ?_, by decide⟩
  · intro fp
    constructor
    · rw [show (hashFingerprint fp).length =
          ((sha256HexChars (utf8Bytes fp)).take 16).length from rfl]
      rw [List.length_take, sha256HexChars_length]
      decide
    · intro c hc
      have hc2 : c ∈ (sha256HexChars (utf8Bytes fp)).take 16 := hc
      exact mem_sha256HexChars c _ (List.mem_of_mem_take hc2)
  · intro d1 d2 hs hl hn hc
    rw [computeStableId, computeStableId, hs, hl, hn, hc]

/-- Witness for C5: the tuple-dependence clause applied to two concrete
descriptors sharing the identity tuple but differing in their mode
lists. -/
theorem stableId_spec_witness :
    computeStableId ⟨"Dev", some "S", some "L", ["Direct", "Static"], [], [], 4⟩ =
      computeStableId ⟨"Dev", some "S", some "L", ["Rainbow"], [], [], 4⟩ :=
  stableId_spec.2.2.1 ⟨"Dev", some "S", some "L", ["Direct", "Static"], [], [], 4⟩
    ⟨"Dev", some "S", some "L", ["Rainbow"], [], [], 4⟩ rfl rfl rfl rfl

end OpenRGB
